import Mathlib

/-!
# huira-gui: output-capture console, stream redirector, default dock layout

A shallow embedding of `src/main.cpp`.

* A C `char` is a value of `Fin 256`; the contents of a `std::string` or of a
  `char` buffer is a list of them.  A C string (`const char*`) is read up to its
  first NUL, which is what `c_str` computes.
* The process state that `main.cpp` touches is gathered in `World`: the global
  `g_console`, the buffer `std::cout` currently writes to, what reached the
  buffers outside the program, `stderr`, the ImGui calls issued by
  `Console::draw`, the function-local static `first_time` and the dock tree.
* A `StreamRedirector` object is a value passed next to the `World`; its
  constructor and destructor are explicit functions, called where C++ scoping
  calls them.
-/

namespace Huira

/-! ## Text -/

/-- One C `char` (a byte). -/
abbrev CChar := Fin 256

/-- Contents of a `std::string` or of a `char` array, NUL bytes included. -/
abbrev CString := List CChar

/-- Bytes of an ASCII literal of the source. -/
def ascii (s : String) : CString := s.toList.map (fun c => Fin.ofNat c.toNat)

/-- What a reader of a `const char*` sees: the bytes before the first NUL
(`std::string::c_str()` read as a C string, `std::string(const char*)`). -/
def c_str (s : CString) : CString := s.takeWhile (fun b => b != 0)

/-- The fragment of `printf` formatting that `main.cpp` uses, as a scanner over
the format: `%s` inserts the next argument read as a C string, `%%` a percent
sign, every other character is copied.  The flag says that the previous
character was an unconsumed `%`.  Conversions other than `%s` do not occur in
the source; the scanner copies them as they stand. -/
def format_aux : Bool → CString → List CString → CString
  | false, [], _ => []
  | true, [], _ => [37]
  | false, c :: rest, args =>
    if c = 37 then format_aux true rest args else c :: format_aux false rest args
  | true, c :: rest, args =>
    if c = 115 then
      match args with
      | a :: others => c_str a ++ format_aux false rest others
      | [] => format_aux false rest []
    else if c = 37 then 37 :: format_aux false rest args
    else 37 :: c :: format_aux false rest args

/-- The text `printf(fmt, args...)` would produce, unbounded. -/
def format (fmt : CString) (args : List CString) : CString :=
  format_aux false (c_str fmt) args

/-- Contents of `buf` (before its terminating NUL) after
`vsnprintf(buf, size, fmt, args)`: the formatted text cut to `size - 1` bytes. -/
def vsnprintf (size : Nat) (fmt : CString) (args : List CString) : CString :=
  (format fmt args).take (size - 1)

/-! ## Console (main.cpp 17-44) -/

/-- Mirror of `struct Console`. -/
structure Console where
  lines : List CString
  scroll_to_bottom : Bool
deriving DecidableEq, Repr

/-- The global `g_console` at program start: no lines, flag false. -/
def Console.init : Console := { lines := [], scroll_to_bottom := false }

/-- Mirror of `Console::log`: format into `char buf[1024]`, push the buffer (read as
a C string) and set the flag. -/
def Console.log (c : Console) (fmt : CString) (args : List CString) : Console :=
  let buf := vsnprintf 1024 fmt args
  { lines := c.lines ++ [c_str buf], scroll_to_bottom := true }

/-- The ImGui calls `Console::draw` issues. -/
inductive ImGuiCall where
  /-- The call `ImGui::TextUnformatted(text)`. -/
  | TextUnformatted (text : CString)
  /-- The call `ImGui::SetScrollHereY(1.0f)`. -/
  | SetScrollHereY
deriving DecidableEq, Repr

/-- Mirror of `Console::draw`: the calls issued, in order, and the console
afterwards. -/
def Console.draw (c : Console) : List ImGuiCall × Console :=
  let texts := c.lines.map (fun line => ImGuiCall.TextUnformatted (c_str line))
  if c.scroll_to_bottom then
    (texts ++ [ImGuiCall.SetScrollHereY], { c with scroll_to_bottom := false })
  else
    (texts, c)

/-- Mirror of `Console::clear`. -/
def Console.clear (c : Console) : Console := { c with lines := [] }

/-! ## Dock layout (main.cpp 270-293)

`ImGui::DockBuilder*` is library code outside `src/`.  It is modelled at the
level of the region tree the specification describes: a node is a leaf holding
the windows docked into it, or a split with an orientation, the fraction of its
space given to its first child, and two children. -/

/-- How the two children of a split are arranged: `horizontal` side by side
(first child on the left), `vertical` stacked (first child on top). -/
inductive Orientation where
  | horizontal
  | vertical
deriving DecidableEq, Repr

/-- Mirror of `ImGuiDir` (the four directions a split can take). -/
inductive ImGuiDir where
  | Left
  | Right
  | Up
  | Down
deriving DecidableEq, Repr

/-- Modelled from the spec: a dock node of ImGui (absent from `src/`), as the spec's
RegionNode: a leaf with the windows bound to it, or a split whose `ratio` is the
fraction of the parent's space assigned to the first child. -/
inductive DockNode where
  | leaf (id : Nat) (windows : List String)
  | split (id : Nat) (orientation : Orientation) (ratio : ℚ) (child0 child1 : DockNode)
deriving DecidableEq, Repr

/-- Largest node id in a tree. -/
def DockNode.max_id : DockNode → Nat
  | .leaf id _ => id
  | .split id _ _ a b => max id (max a.max_id b.max_id)

/-- Leaves of a tree, left to right / top to bottom, as (id, windows). -/
def DockNode.leaves : DockNode → List (Nat × List String)
  | .leaf id ws => [(id, ws)]
  | .split _ _ _ a b => a.leaves ++ b.leaves

/-- Split ratios of a tree, parents first. -/
def DockNode.ratios : DockNode → List ℚ
  | .leaf _ _ => []
  | .split _ _ r a b => r :: (a.ratios ++ b.ratios)

/-- Replace the leaf `target` by a split whose children are two new leaves `id0`
and `id1`; the windows of the old leaf go to the child `inherit`.  `none` when
`target` is not a leaf of the tree (ImGui asserts in that case). -/
def DockNode.split_leaf (target : Nat) (o : Orientation) (ratio : ℚ) (id0 id1 : Nat)
    (inherit : Fin 2) : DockNode → Option DockNode
  | .leaf id ws =>
    if id = target then
      some (.split id o ratio (.leaf id0 (if inherit = 0 then ws else []))
        (.leaf id1 (if inherit = 0 then [] else ws)))
    else none
  | .split id so sr a b =>
    if id = target then none
    else
      match a.split_leaf target o ratio id0 id1 inherit with
      | some a2 => some (.split id so sr a2 b)
      | none =>
        match b.split_leaf target o ratio id0 id1 inherit with
        | some b2 => some (.split id so sr a b2)
        | none => none

/-- Remove a window from every leaf. -/
def DockNode.undock (name : String) : DockNode → DockNode
  | .leaf id ws => .leaf id (ws.filter (fun w => w != name))
  | .split id o r a b => .split id o r (a.undock name) (b.undock name)

/-- Add a window to the leaf `target`; `none` when there is no such leaf. -/
def DockNode.dock (name : String) (target : Nat) : DockNode → Option DockNode
  | .leaf id ws => if id = target then some (.leaf id (ws ++ [name])) else none
  | .split id o r a b =>
    if id = target then none
    else
      match a.dock name target with
      | some a2 => some (.split id o r a2 b)
      | none =>
        match b.dock name target with
        | some b2 => some (.split id o r a b2)
        | none => none

/-- Clamp to [0, 1], as ImGui does with the ratio of a split (`ImSaturate`). -/
def ImSaturate (x : ℚ) : ℚ := if x < 0 then 0 else if 1 < x then 1 else x

/-- Modelled from the spec: `ImGui::DockBuilderRemoveNode` (absent from `src/`): the
tree rooted at `node_id` is dropped. -/
def DockBuilderRemoveNode (tree : Option DockNode) (node_id : Nat) : Option DockNode :=
  match tree with
  | some (.leaf id ws) => if id = node_id then none else some (.leaf id ws)
  | some (.split id o r a b) => if id = node_id then none else some (.split id o r a b)
  | none => none

/-- Modelled from the spec: `ImGui::DockBuilderAddNode` (absent from `src/`): a fresh
root region with the given id and no window. -/
def DockBuilderAddNode (_tree : Option DockNode) (node_id : Nat) : Option DockNode :=
  some (.leaf node_id [])

/-- Modelled from the spec: `ImGui::DockBuilderSplitNode` (absent from `src/`).  The
leaf `node_id` becomes a split; the child lying in direction `split_dir` gets
`size_ratio_for_node_at_dir` of the space.  Returns the tree, the id of the child at
`split_dir` and the id of the child at the opposite side; `none` when `node_id` is
not a leaf of the tree (a configuration error). -/
def DockBuilderSplitNode (tree : Option DockNode) (node_id : Nat) (split_dir : ImGuiDir)
    (size_ratio_for_node_at_dir : ℚ) : Option (DockNode × Nat × Nat) :=
  match tree with
  | none => none
  | some t =>
    let first := split_dir = ImGuiDir.Left ∨ split_dir = ImGuiDir.Up
    let o := if split_dir = ImGuiDir.Left ∨ split_dir = ImGuiDir.Right
      then Orientation.horizontal else Orientation.vertical
    let ratio := ImSaturate
      (if first then size_ratio_for_node_at_dir else 1 - size_ratio_for_node_at_dir)
    let id0 := t.max_id + 1
    let id1 := t.max_id + 2
    match t.split_leaf node_id o ratio id0 id1 (if first then 1 else 0) with
    | none => none
    | some t2 => some (t2, if first then id0 else id1, if first then id1 else id0)

/-- Modelled from the spec: `ImGui::DockBuilderDockWindow` (absent from `src/`): bind
the window to the leaf `node_id`, unbinding it from wherever it was; `none` when
there is no such leaf (a configuration error). -/
def DockBuilderDockWindow (tree : Option DockNode) (window_name : String) (node_id : Nat) :
    Option DockNode :=
  match tree with
  | none => none
  | some t => (t.undock window_name).dock window_name node_id

/-- Mirror of the body of `if (first_time)` in `main` (lines 278-292), given the
dockspace id and the dock tree before.  `DockBuilderSetNodeSize` and
`DockBuilderFinish` fix pixel sizes and do not change the tree of proportions. -/
def build_default_layout (dockspace_id : Nat) (tree : Option DockNode) : Option DockNode :=
  let tree := DockBuilderRemoveNode tree dockspace_id
  let tree := DockBuilderAddNode tree dockspace_id
  let dock_main := dockspace_id
  match DockBuilderSplitNode tree dock_main ImGuiDir.Right 0.25 with
  | none => none
  | some (t1, dock_right, dock_main) =>
  match DockBuilderSplitNode (some t1) dock_main ImGuiDir.Down 0.25 with
  | none => none
  | some (t2, dock_bottom, dock_main) =>
  match DockBuilderSplitNode (some t2) dock_right ImGuiDir.Down 0.5 with
  | none => none
  | some (t3, dock_right_bottom, dock_right) =>
    let tree := DockBuilderDockWindow (some t3) "Viewport" dock_main
    let tree := DockBuilderDockWindow tree "Scene Graph" dock_right
    let tree := DockBuilderDockWindow tree "Properties" dock_right_bottom
    let tree := DockBuilderDockWindow tree "Console" dock_bottom
    tree

/-! ## Process state and StreamRedirector (main.cpp 46-69) -/

/-- A stream buffer `std::cout` can point at: one that exists outside the program
(such as the one attached to standard output), or the buffer of the redirector's
`std::ostringstream capture`. -/
inductive StreamBuf where
  | external (id : Nat)
  | capture
deriving DecidableEq, Repr

/-- The state `main.cpp` reads and writes. -/
structure World where
  /-- The global `static Console g_console`. -/
  g_console : Console
  /-- The buffer `std::cout.rdbuf()` returns. -/
  cout_rdbuf : StreamBuf
  /-- Every write that reached an external buffer: (buffer id, text), oldest first -/
  external_out : List (Nat × CString)
  /-- What was printed to `stderr`, oldest first -/
  stderr_out : List CString
  /-- The ImGui calls made by `Console::draw`, oldest first -/
  imgui_calls : List ImGuiCall
  /-- The local `static bool first_time` of `main`. -/
  first_time : Bool
  /-- The dock tree of the dockspace, `none` while there is none -/
  dock : Option DockNode
deriving DecidableEq, Repr

/-- The process at the start of `main`: empty console, `std::cout` on the standard
output buffer, `first_time` true, no dock tree. -/
def World.init : World :=
  { g_console := Console.init, cout_rdbuf := StreamBuf.external 0, external_out := [],
    stderr_out := [], imgui_calls := [], first_time := true, dock := none }

/-- Mirror of the data members of `class StreamRedirector`. -/
structure StreamRedirector where
  old_buf : StreamBuf
  /-- Contents of `capture` (what `capture.str()` returns) -/
  capture : CString
deriving DecidableEq, Repr

/-- Mirror of the constructor: `old_buf = std::cout.rdbuf(capture.rdbuf())`. -/
def StreamRedirector.ctor (w : World) : World × StreamRedirector :=
  ({ w with cout_rdbuf := StreamBuf.capture }, { old_buf := w.cout_rdbuf, capture := [] })

/-- Mirror of the destructor: `std::cout.rdbuf(old_buf)`. -/
def StreamRedirector.dtor (s : World × StreamRedirector) : World :=
  { s.1 with cout_rdbuf := s.2.old_buf }

/-- Effect of `std::cout << text`: the bytes go to the buffer `std::cout` points at. -/
def cout_write (text : CString) (s : World × StreamRedirector) : World × StreamRedirector :=
  match s.1.cout_rdbuf with
  | StreamBuf.capture => (s.1, { s.2 with capture := s.2.capture ++ text })
  | StreamBuf.external id => ({ s.1 with external_out := s.1.external_out ++ [(id, text)] }, s.2)

/-- A sequence of writes to `std::cout`, in order. -/
def cout_writes : List CString → World × StreamRedirector → World × StreamRedirector
  | [], s => s
  | t :: rest, s => cout_writes rest (cout_write t s)

/-- Mirror of `StreamRedirector::flush_to_console`. -/
def StreamRedirector.flush_to_console (s : World × StreamRedirector) :
    World × StreamRedirector :=
  let output := s.2.capture
  if output ≠ [] then
    ({ s.1 with g_console := s.1.g_console.log (ascii "%s") [output] },
     { s.2 with capture := [] })
  else s

/-! ## Panels and the frame loop (main.cpp 74-98, 194-208, 213-323) -/

/-- What the environment decides during one iteration of the main loop: the text
other code wrote to `std::cout` since the previous drain, and the values the ImGui
calls of the frame return. -/
structure FrameInput where
  /-- Text written to `std::cout` before this frame's `flush_to_console` -/
  cout_writes : List CString
  /-- Value of `ImGui::DockSpaceOverViewport(...)`. -/
  dockspace_id : Nat
  /-- Value of `ImGui::BeginMainMenuBar()`. -/
  main_menu_bar : Bool
  /-- Value of `ImGui::BeginMenu("File")`. -/
  file_menu : Bool
  /-- Value of `ImGui::MenuItem("Open...", "Ctrl+O")`. -/
  open_clicked : Bool
  /-- Value of `ImGui::MenuItem("Save", "Ctrl+S")`. -/
  save_clicked : Bool
  /-- Value of `ImGui::MenuItem("Save As...")`. -/
  save_as_clicked : Bool
  /-- Value of `ImGui::MenuItem("Exit", "Alt+F4")`. -/
  exit_clicked : Bool
  /-- Value of `ImGui::Begin("Console")`. -/
  console_begin : Bool
  /-- Value of `ImGui::Button("Clear")`. -/
  clear_clicked : Bool
deriving DecidableEq, Repr

/-- The call `g_console.log(fmt)` with no further argument, on the world. -/
def World.log (w : World) (fmt : CString) : World :=
  { w with g_console := w.g_console.log fmt [] }

/-- Mirror of `draw_menu_bar`. -/
def draw_menu_bar (i : FrameInput) (w : World) : World :=
  if i.main_menu_bar then
    if i.file_menu then
      let w := if i.open_clicked then w.log (ascii "File > Open clicked") else w
      let w := if i.save_clicked then w.log (ascii "File > Save clicked") else w
      let w := if i.save_as_clicked then w.log (ascii "File > Save As clicked") else w
      let w := if i.exit_clicked then w.log (ascii "File > Exit clicked") else w
      w
    else w
  else w

/-- The call `g_console.draw()` on the world: the calls are recorded. -/
def World.draw_console (w : World) : World :=
  { w with imgui_calls := w.imgui_calls ++ w.g_console.draw.1, g_console := w.g_console.draw.2 }

/-- Mirror of `draw_console_panel`. -/
def draw_console_panel (i : FrameInput) (w : World) : World :=
  if i.console_begin then
    let w := if i.clear_clicked then { w with g_console := w.g_console.clear } else w
    w.draw_console
  else w

/-- Mirror of lines 273-293 of `main`: the layout is built when `first_time` is
true, and `first_time` is cleared. -/
def layout_step (dockspace_id : Nat) (w : World) : World :=
  if w.first_time then
    { w with first_time := false, dock := build_default_layout dockspace_id w.dock }
  else w

/-- Mirror of one iteration of the `while` loop of `main`.  The viewport, scene
graph and properties panels only issue ImGui calls and touch none of the state
in `World`; backend rendering is likewise left out. -/
def frame (i : FrameInput) (s : World × StreamRedirector) : World × StreamRedirector :=
  let s := StreamRedirector.flush_to_console s
  let w := layout_step i.dockspace_id s.1
  let w := draw_menu_bar i w
  let w := draw_console_panel i w
  (w, s.2)

/-- The `while (!glfwWindowShouldClose(window))` loop over the iterations that run
before the close request; each is preceded by the writes the environment made to
`std::cout` meanwhile. -/
def main_loop : List FrameInput → World × StreamRedirector → World × StreamRedirector
  | [], s => s
  | i :: rest, s => main_loop rest (frame i (cout_writes i.cout_writes s))

/-- What the environment decides during a run of `main` that returns. -/
structure MainInput where
  /-- Whether `glfwInit()` succeeded. -/
  glfwInit_ok : Bool
  /-- Whether `glfwCreateWindow(...)` returned a window. -/
  window_ok : Bool
  /-- The loop iterations until the window is asked to close -/
  frames : List FrameInput
deriving DecidableEq, Repr

/-- State of `main` on entry to the loop (lines 215-257) when both initialisations
succeed: the redirector is installed and the initial message is logged. -/
def main_startup (w : World) : World × StreamRedirector :=
  let s := StreamRedirector.ctor w
  (s.1.log (ascii "Application started"), s.2)

/-- Mirror of `main`: the exit status and the process state when it returns.  The
local `redirector` is destroyed on each `return`, as C++ scoping prescribes. -/
def main (inp : MainInput) (w : World) : Int × World :=
  let s := StreamRedirector.ctor w
  if !inp.glfwInit_ok then
    let w := { s.1 with stderr_out := s.1.stderr_out ++ [ascii "Failed to initialize GLFW\n"] }
    (1, StreamRedirector.dtor (w, s.2))
  else if !inp.window_ok then
    let w := { s.1 with stderr_out := s.1.stderr_out ++ [ascii "Failed to create GLFW window\n"] }
    (1, StreamRedirector.dtor (w, s.2))
  else
    let s := (s.1.log (ascii "Application started"), s.2)
    let s := main_loop inp.frames s
    (0, StreamRedirector.dtor s)

/-- An operation on the console or the stream, for stating properties over
arbitrary sequences of them. -/
inductive Op where
  /-- The statement `std::cout << text`. -/
  | write (text : CString)
  /-- The call `redirector.flush_to_console()`. -/
  | flush
  /-- The call `g_console.log(fmt, args...)`. -/
  | log (fmt : CString) (args : List CString)
  /-- The call `g_console.clear()`. -/
  | clear
  /-- The call `g_console.draw()`. -/
  | draw
deriving DecidableEq, Repr

/-- Effect of one operation. -/
def Op.run : Op → World × StreamRedirector → World × StreamRedirector
  | .write text, s => cout_write text s
  | .flush, s => StreamRedirector.flush_to_console s
  | .log fmt args, s => ({ s.1 with g_console := s.1.g_console.log fmt args }, s.2)
  | .clear, s => ({ s.1 with g_console := s.1.g_console.clear }, s.2)
  | .draw, s => (s.1.draw_console, s.2)

/-- Effect of a sequence of operations, in order. -/
def run_ops : List Op → World × StreamRedirector → World × StreamRedirector
  | [], s => s
  | op :: rest, s => run_ops rest (op.run s)

/-! ## The specification's reading of the drain and of the layout directives -/

/-- Modelled from the spec: the capture state the spec's `drain()` works on: the line
store and the incomplete trailing line retained for a later drain. -/
structure SpecCapture where
  lines : List CString
  retained : CString
deriving DecidableEq, Repr

/-- Cut a text at its line terminators (`\n`, byte 10): the complete lines in
order, and the unterminated rest.  `cur` is the line being read. -/
def split_complete_lines : CString → CString → List CString × CString
  | cur, [] => ([], cur)
  | cur, b :: rest =>
    if b = 10 then ((cur :: (split_complete_lines [] rest).1), (split_complete_lines [] rest).2)
    else split_complete_lines (cur ++ [b]) rest

/-- Modelled from the spec: `drain()` as section 4.1 and section 8 word it: the bytes
written since the last drain are split into lines, each non-empty complete line
is appended in order, and an incomplete trailing line is retained. -/
def spec_drain (s : SpecCapture) (writes : List CString) : SpecCapture :=
  let r := split_complete_lines s.retained writes.flatten
  { lines := s.lines ++ r.1.filter (fun l => l ≠ []), retained := r.2 }

/-- Modelled from the spec: a split directive of section 4.2,
`(parent_region, direction, ratio) → (first_child_region, second_child_region)`. -/
structure SplitDirective where
  parent : String
  orientation : Orientation
  ratio : ℚ
  first : String
  second : String
deriving DecidableEq, Repr

/-- Modelled from the spec: the RegionNode of section 3, with leaves named as the
directives name them. -/
inductive RegionNode where
  | leaf (region : String) (panel : Option String)
  | split (orientation : Orientation) (ratio : ℚ) (first second : RegionNode)
deriving DecidableEq, Repr

/-- Apply one directive: the leaf named `d.parent` becomes a split with two new
leaves; `none` when no leaf has that name. -/
def RegionNode.apply_split (d : SplitDirective) : RegionNode → Option RegionNode
  | .leaf region panel =>
    if region = d.parent ∧ panel = none then
      some (.split d.orientation d.ratio (.leaf d.first none) (.leaf d.second none))
    else none
  | .split o r a b =>
    match a.apply_split d with
    | some a2 => some (.split o r a2 b)
    | none =>
      match b.apply_split d with
      | some b2 => some (.split o r a b2)
      | none => none

/-- Bind a panel to the leaf named `region`; `none` when there is no such free
leaf. -/
def RegionNode.bind (panel region : String) : RegionNode → Option RegionNode
  | .leaf name p =>
    if name = region ∧ p = none then some (.leaf name (some panel)) else none
  | .split o r a b =>
    match a.bind panel region with
    | some a2 => some (.split o r a2 b)
    | none =>
      match b.bind panel region with
      | some b2 => some (.split o r a b2)
      | none => none

/-- Modelled from the spec: the layout engine of section 4.2: the directives are
applied in order to the full-window region `root`, then the bindings. -/
def spec_layout (directives : List SplitDirective) (bindings : List (String × String)) :
    Option RegionNode :=
  let t := directives.foldl (fun t d => t.bind (RegionNode.apply_split d))
    (some (RegionNode.leaf "root" none))
  bindings.foldl (fun t b => t.bind (RegionNode.bind b.1 b.2)) t

/-- A region tree without the names of its regions: what two layouts are compared
on. -/
inductive Shape where
  | leaf (panels : List String)
  | split (orientation : Orientation) (ratio : ℚ) (first second : Shape)
deriving DecidableEq, Repr

/-- Shape of a dock tree. -/
def DockNode.shape : DockNode → Shape
  | .leaf _ ws => .leaf ws
  | .split _ o r a b => .split o r a.shape b.shape

/-- Shape of a spec region tree. -/
def RegionNode.shape : RegionNode → Shape
  | .leaf _ p => .leaf p.toList
  | .split o r a b => .split o r a.shape b.shape

/-- The directives of the spec's section 8, `vertical` splitting top/bottom and
`horizontal` left/right. -/
def spec_directives : List SplitDirective :=
  [ { parent := "root", orientation := .vertical, ratio := 0.75, first := "main", second := "bottom" },
    { parent := "main", orientation := .horizontal, ratio := 0.75, first := "main2", second := "right" },
    { parent := "right", orientation := .vertical, ratio := 0.5, first := "right_top",
      second := "right_bottom" } ]

/-- The directives the first frame of `main` carries out: the window is first cut
left/right, then the left part top/bottom. -/
def code_directives : List SplitDirective :=
  [ { parent := "root", orientation := .horizontal, ratio := 0.75, first := "main", second := "right" },
    { parent := "main", orientation := .vertical, ratio := 0.75, first := "main2", second := "bottom" },
    { parent := "right", orientation := .vertical, ratio := 0.5, first := "right_top",
      second := "right_bottom" } ]

/-- The bindings of the spec's section 8, with the window titles of `main.cpp`. -/
def spec_bindings : List (String × String) :=
  [("Viewport", "main2"), ("Scene Graph", "right_top"), ("Properties", "right_bottom"),
   ("Console", "bottom")]

/-- The four panels of the application. -/
def panel_names : List String := ["Viewport", "Scene Graph", "Properties", "Console"]

/-- Number of leaves a window is docked in. -/
def DockNode.leaves_holding (t : DockNode) (name : String) : Nat :=
  (t.leaves.filter (fun l => decide (name ∈ l.2))).length

/-- A rectangle in fractions of the window: left edge, top edge, width, height. -/
structure Rect where
  x : ℚ
  y : ℚ
  w : ℚ
  h : ℚ
deriving DecidableEq, Repr

/-- Modelled from the spec: the part of the window each leaf takes, the ratio of a
split being the fraction of the parent's space given to the first child in the split
direction. -/
def DockNode.regions : DockNode → Rect → List (List String × Rect)
  | .leaf _ ws, r => [(ws, r)]
  | .split _ .horizontal ratio a b, r =>
    a.regions { r with w := r.w * ratio } ++
      b.regions { r with x := r.x + r.w * ratio, w := r.w * (1 - ratio) }
  | .split _ .vertical ratio a b, r =>
    a.regions { r with h := r.h * ratio } ++
      b.regions { r with y := r.y + r.h * ratio, h := r.h * (1 - ratio) }


/-- A frame in which nothing was written to `std::cout`, no menu item is clicked, the
console window is shown and Clear is not pressed. -/
def quiet_frame : FrameInput :=
  { cout_writes := [], dockspace_id := 1, main_menu_bar := true, file_menu := false,
    open_clicked := false, save_clicked := false, save_as_clicked := false,
    exit_clicked := false, console_begin := true, clear_clicked := false }

/-- Every stored line is free of NUL bytes, as every line stored by `Console::log`
is (it is built from a `char*`). -/
abbrev Console.NulFree (c : Console) : Prop := ∀ l ∈ c.lines, (0 : CChar) ∉ l

/-- Two states agree on everything the console can depend on: the console, the
destination of `std::cout` and the redirector; they may differ in what was
written outside. -/
def Agree (s t : World × StreamRedirector) : Prop :=
  s.1.g_console = t.1.g_console ∧ s.1.cout_rdbuf = t.1.cout_rdbuf ∧ s.2 = t.2

/-! ## Lemmas on text -/

theorem c_str_no_nul (s : CString) : ∀ x ∈ c_str s, x ≠ 0 := by
  intro x hx
  have h := List.mem_takeWhile_imp hx
  simpa using h

theorem c_str_eq_self_iff (s : CString) : c_str s = s ↔ (0 : CChar) ∉ s := by
  unfold c_str
  rw [List.takeWhile_eq_self_iff]
  constructor
  · intro h h0
    have := h 0 h0
    simp at this
  · intro h x hx
    have : x ≠ 0 := fun e => h (e ▸ hx)
    simpa using this

theorem c_str_idem_take (n : Nat) (s : CString) : c_str ((c_str s).take n) = (c_str s).take n := by
  rw [c_str_eq_self_iff]
  intro h0
  exact c_str_no_nul s 0 (List.mem_of_mem_take h0) rfl

theorem format_percent_s (s : CString) : format (ascii "%s") [s] = c_str s := by
  have h : c_str (ascii "%s") = [37, 115] := by decide
  unfold format
  rw [h]
  simp [format_aux]

theorem log_percent_s (c : Console) (s : CString) :
    c.log (ascii "%s") [s] = { lines := c.lines ++ [(c_str s).take 1023], scroll_to_bottom := true } := by
  simp [Console.log, vsnprintf, format_percent_s, c_str_idem_take]

theorem take_c_str_eq_self_iff (s : CString) :
    (c_str s).take 1023 = s ↔ (s.length ≤ 1023 ∧ (0 : CChar) ∉ s) := by
  constructor
  · intro h
    have h0 : (0 : CChar) ∉ s := by
      intro h0
      rw [← h] at h0
      exact c_str_no_nul s 0 (List.mem_of_mem_take h0) rfl
    refine ⟨?_, h0⟩
    have := congrArg List.length h
    simp at this
    omega
  · rintro ⟨hl, h0⟩
    rw [(c_str_eq_self_iff s).2 h0]
    exact List.take_of_length_le hl

/-! ## Lemmas on the console and the redirector -/

theorem Console.init_nulFree : Console.init.NulFree := by
  intro l hl
  simp [Console.init] at hl

theorem Console.log_nulFree (c : Console) (fmt : CString) (args : List CString)
    (h : c.NulFree) : (c.log fmt args).NulFree := by
  intro l hl
  simp only [Console.log, List.mem_append, List.mem_singleton] at hl
  rcases hl with hl | hl
  · exact h l hl
  · subst hl
    intro h0
    exact c_str_no_nul _ 0 h0 rfl

theorem Console.clear_nulFree (c : Console) : c.clear.NulFree := by
  intro l hl
  simp [Console.clear] at hl

theorem Console.draw_nulFree (c : Console) (h : c.NulFree) : c.draw.2.NulFree := by
  unfold Console.draw
  split <;> exact h

theorem Op.run_nulFree (op : Op) (s : World × StreamRedirector) (h : s.1.g_console.NulFree) :
    (op.run s).1.g_console.NulFree := by
  cases op with
  | write text =>
    show (cout_write text s).1.g_console.NulFree
    unfold cout_write
    split <;> exact h
  | flush =>
    show (StreamRedirector.flush_to_console s).1.g_console.NulFree
    unfold StreamRedirector.flush_to_console
    dsimp only
    split
    · exact Console.log_nulFree _ _ _ h
    · exact h
  | log fmt args => exact Console.log_nulFree _ _ _ h
  | clear => exact Console.clear_nulFree _
  | draw => exact Console.draw_nulFree _ h

theorem run_ops_nulFree (ops : List Op) (s : World × StreamRedirector)
    (h : s.1.g_console.NulFree) : (run_ops ops s).1.g_console.NulFree := by
  induction ops generalizing s with
  | nil => exact h
  | cons op rest ih => exact ih _ (Op.run_nulFree op s h)

theorem Console.draw_lines (c : Console) : c.draw.2.lines = c.lines := by
  unfold Console.draw
  split <;> rfl

theorem flush_to_console_eq (w : World) (r : StreamRedirector) :
    StreamRedirector.flush_to_console (w, r) =
      if r.capture = [] then (w, r)
      else ({ w with g_console :=
                { lines := w.g_console.lines ++ [(c_str r.capture).take 1023],
                  scroll_to_bottom := true } },
            { r with capture := [] }) := by
  unfold StreamRedirector.flush_to_console
  by_cases h : r.capture = []
  · simp [h]
  · simp [h, log_percent_s]

theorem cout_writes_captured (writes : List CString) (w : World) (r : StreamRedirector)
    (h : w.cout_rdbuf = StreamBuf.capture) :
    cout_writes writes (w, r) = (w, { r with capture := r.capture ++ writes.flatten }) := by
  induction writes generalizing r with
  | nil => simp [cout_writes]
  | cons t rest ih =>
    simp only [cout_writes, cout_write, h]
    rw [ih]
    simp

/-! ## Claims on the console -/

/-- C10: one call of `flush_to_console` does nothing on an empty capture buffer and
otherwise appends exactly one entry, the captured text cut at its first NUL byte
and at 1023 bytes, and sets the flag; the capture buffer is empty afterwards, so
the bytes cut off are not kept for a later drain; the entry equals the captured
text exactly when that text has at most 1023 bytes and no NUL. -/
theorem flush_to_console_one_cut_entry (w : World) (r : StreamRedirector) :
    StreamRedirector.flush_to_console (w, r) =
      (if r.capture = [] then (w, r)
       else ({ w with g_console :=
                 { lines := w.g_console.lines ++ [(c_str r.capture).take 1023],
                   scroll_to_bottom := true } },
             { r with capture := [] })) ∧
    (StreamRedirector.flush_to_console (w, r)).1.g_console.lines =
      w.g_console.lines ++ (if r.capture = [] then [] else [(c_str r.capture).take 1023]) ∧
    (StreamRedirector.flush_to_console (w, r)).2.capture = [] ∧
    ((c_str r.capture).take 1023 = r.capture ↔
      (r.capture.length ≤ 1023 ∧ (0 : CChar) ∉ r.capture)) ∧
    StreamRedirector.flush_to_console (StreamRedirector.flush_to_console (w, r)) =
      StreamRedirector.flush_to_console (w, r) := by
  refine ⟨flush_to_console_eq w r, ?_, ?_, take_c_str_eq_self_iff _, ?_⟩
  · rw [flush_to_console_eq]
    by_cases h : r.capture = [] <;> simp [h]
  · rw [flush_to_console_eq]
    by_cases h : r.capture = [] <;> simp [h]
  · rw [flush_to_console_eq w r]
    by_cases h : r.capture = []
    · simp [h, flush_to_console_eq]
    · simp [h, flush_to_console_eq]

/-- C1 (as stated, refuted): after the single write "a\nb" into a freshly installed
redirector, `flush_to_console` stores the one entry "a\nb" and keeps nothing back,
where the spec's drain stores the line "a" and retains "b". -/
theorem flush_to_console_does_not_split_lines :
    (StreamRedirector.flush_to_console
        (cout_writes [ascii "a\nb"] (StreamRedirector.ctor World.init))).1.g_console.lines
      = [ascii "a\nb"] ∧
    (StreamRedirector.flush_to_console
        (cout_writes [ascii "a\nb"] (StreamRedirector.ctor World.init))).2.capture = [] ∧
    spec_drain { lines := [], retained := [] } [ascii "a\nb"]
      = { lines := [ascii "a"], retained := ascii "b" } ∧
    (StreamRedirector.flush_to_console
        (cout_writes [ascii "a\nb"] (StreamRedirector.ctor World.init))).1.g_console.lines
      ≠ (spec_drain { lines := [], retained := [] } [ascii "a\nb"]).lines := by
  decide

/-- C1 (amended): with the redirector installed and the buffer drained, for writes
whose concatenation has no NUL byte and at most 1023 bytes, `flush_to_console`
appends nothing when the concatenation is empty and otherwise the one entry that
is the concatenation of the writes in order, terminators kept; the capture buffer
is empty afterwards, so nothing is retained for, or repeated by, a later drain. -/
theorem flush_to_console_appends_writes_unsplit (w : World) (r : StreamRedirector)
    (writes : List CString) (h_installed : w.cout_rdbuf = StreamBuf.capture)
    (h_drained : r.capture = []) (h_nul : (0 : CChar) ∉ writes.flatten)
    (h_len : writes.flatten.length ≤ 1023) :
    (StreamRedirector.flush_to_console (cout_writes writes (w, r))).1.g_console.lines =
      w.g_console.lines ++ (if writes.flatten = [] then [] else [writes.flatten]) ∧
    (StreamRedirector.flush_to_console (cout_writes writes (w, r))).2.capture = [] ∧
    StreamRedirector.flush_to_console
        (StreamRedirector.flush_to_console (cout_writes writes (w, r))) =
      StreamRedirector.flush_to_console (cout_writes writes (w, r)) := by
  rw [cout_writes_captured writes w r h_installed, flush_to_console_eq]
  have hcut : (c_str writes.flatten).take 1023 = writes.flatten :=
    (take_c_str_eq_self_iff _).2 ⟨h_len, h_nul⟩
  by_cases h : writes.flatten = []
  · simp [h, h_drained, flush_to_console_eq]
  · have h2 : ¬ (List.flatten writes = []) := h
    simp [h2, h_drained, hcut, flush_to_console_eq]

/-- Witness of `flush_to_console_appends_writes_unsplit`: the writes "ab", "c\nd". -/
theorem flush_to_console_appends_writes_unsplit_witness :
    (StreamRedirector.flush_to_console
        (cout_writes [ascii "ab", ascii "c\nd"] (StreamRedirector.ctor World.init))).1.g_console.lines
      = [] ++ (if [ascii "ab", ascii "c\nd"].flatten = [] then []
               else [[ascii "ab", ascii "c\nd"].flatten]) :=
  (flush_to_console_appends_writes_unsplit (StreamRedirector.ctor World.init).1
    (StreamRedirector.ctor World.init).2 [ascii "ab", ascii "c\nd"]
    (by decide) (by decide) (by decide) (by decide)).1

/-- C6: `Console::clear` empties the line store and leaves the redirector, the
destination of `std::cout` and what was written outside untouched; clearing and
then draining with nothing captured since the last drain leaves the line store
empty. -/
theorem clear_then_flush_leaves_lines_empty (w : World) (r : StreamRedirector) :
    w.g_console.clear.lines = [] ∧
    (Op.clear.run (w, r)).1.g_console.lines = [] ∧
    (Op.clear.run (w, r)).2 = r ∧
    (Op.clear.run (w, r)).1.cout_rdbuf = w.cout_rdbuf ∧
    (Op.clear.run (w, r)).1.external_out = w.external_out ∧
    (StreamRedirector.flush_to_console
      (Op.clear.run (w, { r with capture := [] }))).1.g_console.lines = [] ∧
    (StreamRedirector.flush_to_console
      (Op.clear.run (StreamRedirector.flush_to_console (w, r)))).1.g_console.lines = [] := by
  refine ⟨rfl, rfl, rfl, rfl, rfl, ?_, ?_⟩
  · simp [Op.run, flush_to_console_eq, Console.clear]
  · rw [flush_to_console_eq w r]
    by_cases h : r.capture = []
    · simp [h, Op.run, flush_to_console_eq, Console.clear]
    · simp [h, Op.run, flush_to_console_eq, Console.clear]

/-- C7: `Console::draw` issues one `TextUnformatted` per stored line, in insertion
order, then `SetScrollHereY` exactly when `scroll_to_bottom` was true; the line
store is unchanged and the flag is false afterwards, so a second draw issues no
`SetScrollHereY` and changes nothing. -/
theorem draw_emits_lines_and_consumes_flag (c : Console) (h : c.NulFree) :
    c.draw.1 = c.lines.map ImGuiCall.TextUnformatted ++
      (if c.scroll_to_bottom then [ImGuiCall.SetScrollHereY] else []) ∧
    c.draw.2.lines = c.lines ∧
    (ImGuiCall.SetScrollHereY ∈ c.draw.1 ↔ c.scroll_to_bottom = true) ∧
    c.draw.2.scroll_to_bottom = false ∧
    ImGuiCall.SetScrollHereY ∉ c.draw.2.draw.1 ∧
    c.draw.2.draw.2 = c.draw.2 := by
  have hmap : c.lines.map (fun line => ImGuiCall.TextUnformatted (c_str line)) =
      c.lines.map ImGuiCall.TextUnformatted := by
    apply List.map_congr_left
    intro l hl
    rw [(c_str_eq_self_iff l).2 (h l hl)]
  cases hs : c.scroll_to_bottom <;> simp [Console.draw, hs, hmap]

/-- Witness of `draw_emits_lines_and_consumes_flag`: the console after logging
"Application started". -/
theorem draw_emits_lines_and_consumes_flag_witness :
    (Console.init.log (ascii "Application started") []).NulFree ∧
    (Console.init.log (ascii "Application started") []).draw.1 =
      [ImGuiCall.TextUnformatted (ascii "Application started"), ImGuiCall.SetScrollHereY] :=
  ⟨by decide,
   (draw_emits_lines_and_consumes_flag (Console.init.log (ascii "Application started") [])
      (by decide)).1.trans (by decide)⟩

/-- C8: from the initial empty console, "Application started" written to
`std::cout` before the first drain gives, after `flush_to_console`, a line store
holding exactly that line with `scroll_to_bottom` true, and `Console::draw` then
clears the flag and keeps the store; the state `main` itself enters its loop with
(the message logged by `g_console.log`) gives the same after the first drain. -/
theorem application_started_first_frame :
    (StreamRedirector.flush_to_console
        (cout_write (ascii "Application started") (StreamRedirector.ctor World.init))).1.g_console
      = { lines := [ascii "Application started"], scroll_to_bottom := true } ∧
    (StreamRedirector.flush_to_console
        (cout_write (ascii "Application started")
          (StreamRedirector.ctor World.init))).1.draw_console.g_console
      = { lines := [ascii "Application started"], scroll_to_bottom := false } ∧
    (StreamRedirector.flush_to_console (main_startup World.init)).1.g_console
      = { lines := [ascii "Application started"], scroll_to_bottom := true } ∧
    (StreamRedirector.flush_to_console (main_startup World.init)).1.draw_console.g_console
      = { lines := [ascii "Application started"], scroll_to_bottom := false } ∧
    (main_loop [quiet_frame] (main_startup World.init)).1.g_console
      = { lines := [ascii "Application started"], scroll_to_bottom := false } ∧
    (main { glfwInit_ok := true, window_ok := true, frames := [quiet_frame] } World.init).2.g_console
      = { lines := [ascii "Application started"], scroll_to_bottom := false } := by
  decide

/-! ## Claims on the redirector and on `main` -/

theorem cout_write_old_buf (t : CString) (s : World × StreamRedirector) :
    (cout_write t s).2.old_buf = s.2.old_buf := by
  unfold cout_write
  split <;> rfl

theorem cout_writes_old_buf (ts : List CString) (s : World × StreamRedirector) :
    (cout_writes ts s).2.old_buf = s.2.old_buf := by
  induction ts generalizing s with
  | nil => rfl
  | cons t rest ih => simp [cout_writes, ih, cout_write_old_buf]

theorem flush_old_buf (s : World × StreamRedirector) :
    (StreamRedirector.flush_to_console s).2.old_buf = s.2.old_buf := by
  unfold StreamRedirector.flush_to_console
  dsimp only
  split <;> rfl

theorem frame_old_buf (i : FrameInput) (s : World × StreamRedirector) :
    (frame i s).2.old_buf = s.2.old_buf := by
  simp [frame, flush_old_buf]

theorem main_loop_old_buf (frames : List FrameInput) (s : World × StreamRedirector) :
    (main_loop frames s).2.old_buf = s.2.old_buf := by
  induction frames generalizing s with
  | nil => rfl
  | cons i rest ih => simp [main_loop, ih, frame_old_buf, cout_writes_old_buf]

/-- C2: whatever `glfwInit` and `glfwCreateWindow` return and whatever happens in
the frames run before the close request, when `main` returns `std::cout` points at
the buffer it pointed at on entry; the exit status is 0 when both initialisations
succeed and 1 otherwise. -/
theorem main_restores_cout_on_every_return (inp : MainInput) (w : World) :
    (main inp w).2.cout_rdbuf = w.cout_rdbuf ∧
    (main inp w).1 = (if inp.glfwInit_ok ∧ inp.window_ok then 0 else 1) := by
  unfold main
  cases h1 : inp.glfwInit_ok <;> cases h2 : inp.window_ok <;>
    simp [StreamRedirector.dtor, StreamRedirector.ctor, main_loop_old_buf]

theorem Op.run_old_buf (op : Op) (s : World × StreamRedirector) :
    (op.run s).2.old_buf = s.2.old_buf := by
  cases op <;> simp [Op.run, cout_write_old_buf, flush_old_buf]

theorem run_ops_old_buf (ops : List Op) (s : World × StreamRedirector) :
    (run_ops ops s).2.old_buf = s.2.old_buf := by
  induction ops generalizing s with
  | nil => rfl
  | cons op rest ih => simp [run_ops, ih, Op.run_old_buf]

theorem Op.run_agree (op : Op) (s t : World × StreamRedirector) (h : Agree s t) :
    Agree (op.run s) (op.run t) := by
  obtain ⟨sw, sr⟩ := s
  obtain ⟨tw, tr⟩ := t
  obtain ⟨hc, hb, hr⟩ := h
  simp only at hc hb hr
  subst hr
  cases op with
  | write text =>
    cases hs : sw.cout_rdbuf with
    | capture =>
      have ht : tw.cout_rdbuf = StreamBuf.capture := by rw [← hb, hs]
      simp [Agree, Op.run, cout_write, hs, ht, hc]
    | external id =>
      have ht : tw.cout_rdbuf = StreamBuf.external id := by rw [← hb, hs]
      simp [Agree, Op.run, cout_write, hs, ht, hc]
  | flush =>
    simp only [Op.run, flush_to_console_eq]
    by_cases he : sr.capture = []
    · simp only [he, if_true]
      exact ⟨hc, hb, rfl⟩
    · simp only [he, if_false]
      exact ⟨by simp [hc], hb, rfl⟩
  | log fmt args => exact ⟨by simp [Op.run, hc], hb, rfl⟩
  | clear => exact ⟨by simp [Op.run, hc], hb, rfl⟩
  | draw => exact ⟨by simp [Op.run, World.draw_console, hc], hb, rfl⟩

theorem run_ops_agree (ops : List Op) (s t : World × StreamRedirector) (h : Agree s t) :
    Agree (run_ops ops s) (run_ops ops t) := by
  induction ops generalizing s t with
  | nil => exact h
  | cons op rest ih => exact ih _ _ (Op.run_agree op s t h)

/-- C3: a redirector constructed while `std::cout` points at an external buffer,
used through any operations and then destroyed, leaves `std::cout` pointing at
that buffer again; text written afterwards reaches that buffer, changes neither
the console nor the capture buffer, and whatever operations follow (drains
included) the console is what it would be had the text not been written. -/
theorem uninstall_restores_destination (w : World) (id : Nat)
    (h : w.cout_rdbuf = StreamBuf.external id) (during later : List Op) (text : CString) :
    (StreamRedirector.dtor (run_ops during (StreamRedirector.ctor w))).cout_rdbuf
      = w.cout_rdbuf ∧
    (cout_write text (StreamRedirector.dtor (run_ops during (StreamRedirector.ctor w)),
        (run_ops during (StreamRedirector.ctor w)).2)).1.external_out
      = (run_ops during (StreamRedirector.ctor w)).1.external_out ++ [(id, text)] ∧
    (cout_write text (StreamRedirector.dtor (run_ops during (StreamRedirector.ctor w)),
        (run_ops during (StreamRedirector.ctor w)).2)).1.g_console
      = (run_ops during (StreamRedirector.ctor w)).1.g_console ∧
    (cout_write text (StreamRedirector.dtor (run_ops during (StreamRedirector.ctor w)),
        (run_ops during (StreamRedirector.ctor w)).2)).2
      = (run_ops during (StreamRedirector.ctor w)).2 ∧
    (run_ops later
        (cout_write text (StreamRedirector.dtor (run_ops during (StreamRedirector.ctor w)),
          (run_ops during (StreamRedirector.ctor w)).2))).1.g_console
      = (run_ops later (StreamRedirector.dtor (run_ops during (StreamRedirector.ctor w)),
          (run_ops during (StreamRedirector.ctor w)).2)).1.g_console := by
  have hold : (run_ops during (StreamRedirector.ctor w)).2.old_buf = StreamBuf.external id := by
    rw [run_ops_old_buf]
    exact h
  have hrd : (StreamRedirector.dtor (run_ops during (StreamRedirector.ctor w))).cout_rdbuf
      = StreamBuf.external id := hold
  refine ⟨hrd.trans h.symm, ?_, ?_, ?_, ?_⟩
  · simp [cout_write, StreamRedirector.dtor, hold]
  · simp [cout_write, StreamRedirector.dtor, hold]
  · simp [cout_write, hrd]
  · apply (run_ops_agree later _ _ _).1
    refine ⟨?_, ?_, ?_⟩ <;> simp [cout_write, hrd]

/-- Witness of `uninstall_restores_destination`: "x" is captured, the redirector is
destroyed, "y" is written and a drain is attempted: "y" is outside, not in the
console. -/
theorem uninstall_restores_destination_witness :
    World.init.cout_rdbuf = StreamBuf.external 0 ∧
    (StreamRedirector.dtor (run_ops [Op.write (ascii "x")]
      (StreamRedirector.ctor World.init))).cout_rdbuf = World.init.cout_rdbuf :=
  ⟨rfl, (uninstall_restores_destination World.init 0 rfl [Op.write (ascii "x")] [Op.flush]
    (ascii "y")).1⟩

/-! ## Claims on the layout -/

theorem cout_write_layout (t : CString) (s : World × StreamRedirector) :
    (cout_write t s).1.first_time = s.1.first_time ∧ (cout_write t s).1.dock = s.1.dock := by
  unfold cout_write
  split <;> exact ⟨rfl, rfl⟩

theorem cout_writes_layout (ts : List CString) (s : World × StreamRedirector) :
    (cout_writes ts s).1.first_time = s.1.first_time ∧ (cout_writes ts s).1.dock = s.1.dock := by
  induction ts generalizing s with
  | nil => exact ⟨rfl, rfl⟩
  | cons t rest ih =>
    simp only [cout_writes]
    rw [(ih _).1, (ih _).2]
    exact cout_write_layout t s

theorem draw_menu_bar_layout (i : FrameInput) (w : World) :
    (draw_menu_bar i w).first_time = w.first_time ∧ (draw_menu_bar i w).dock = w.dock := by
  unfold draw_menu_bar
  cases i.main_menu_bar <;> cases i.file_menu <;> cases i.open_clicked <;>
    cases i.save_clicked <;> cases i.save_as_clicked <;> cases i.exit_clicked <;>
    exact ⟨rfl, rfl⟩

theorem draw_console_panel_layout (i : FrameInput) (w : World) :
    (draw_console_panel i w).first_time = w.first_time ∧
    (draw_console_panel i w).dock = w.dock := by
  unfold draw_console_panel
  cases i.console_begin <;> cases i.clear_clicked <;> exact ⟨rfl, rfl⟩

theorem flush_layout (s : World × StreamRedirector) :
    (StreamRedirector.flush_to_console s).1.first_time = s.1.first_time ∧
    (StreamRedirector.flush_to_console s).1.dock = s.1.dock := by
  unfold StreamRedirector.flush_to_console
  dsimp only
  split <;> exact ⟨rfl, rfl⟩

theorem frame_layout (i : FrameInput) (s : World × StreamRedirector) :
    (frame i s).1.first_time = false ∧
    (frame i s).1.dock =
      (if s.1.first_time then build_default_layout i.dockspace_id s.1.dock else s.1.dock) := by
  unfold frame
  simp only [(draw_console_panel_layout _ _).1, (draw_console_panel_layout _ _).2,
    (draw_menu_bar_layout _ _).1, (draw_menu_bar_layout _ _).2]
  unfold layout_step
  rw [(flush_layout s).1, (flush_layout s).2]
  cases h : s.1.first_time <;> simp [h, (flush_layout s).1, (flush_layout s).2]

theorem main_loop_built (frames : List FrameInput) (s : World × StreamRedirector)
    (h : s.1.first_time = false) :
    (main_loop frames s).1.first_time = false ∧ (main_loop frames s).1.dock = s.1.dock := by
  induction frames generalizing s with
  | nil => exact ⟨h, rfl⟩
  | cons i rest ih =>
    simp only [main_loop]
    have hf := frame_layout i (cout_writes i.cout_writes s)
    have hw := cout_writes_layout i.cout_writes s
    have := ih _ hf.1
    refine ⟨this.1, ?_⟩
    rw [this.2, hf.2, hw.1, hw.2, h]
    simp

theorem layout_step_of_built (d : Nat) (w : World) (h : w.first_time = false) :
    layout_step d w = w := by
  simp [layout_step, h]

/-- C5: the layout step clears `first_time`, builds the default layout when the flag
was true and does nothing when it was false, so running it twice equals running it
once; in the frame loop the dock tree after the first frame and any number of
further frames is the tree after the first frame, and the flag is false. -/
theorem layout_built_on_first_frame_only (d d2 : Nat) (w : World) (i : FrameInput)
    (frames : List FrameInput) (s : World × StreamRedirector) :
    (layout_step d w).first_time = false ∧
    layout_step d2 (layout_step d w) = layout_step d w ∧
    (layout_step d { w with first_time := true }).dock = build_default_layout d w.dock ∧
    layout_step d { w with first_time := false } = { w with first_time := false } ∧
    (main_loop (i :: frames) s).1.dock = (main_loop [i] s).1.dock ∧
    (main_loop (i :: frames) s).1.first_time = false ∧
    (main_loop [i] ({ s.1 with first_time := true }, s.2)).1.dock
      = build_default_layout i.dockspace_id s.1.dock := by
  have h1 : (layout_step d w).first_time = false := by
    unfold layout_step
    cases h : w.first_time <;> simp [h]
  refine ⟨h1, ?_, ?_, ?_, ?_, ?_, ?_⟩
  · exact layout_step_of_built d2 _ h1
  · simp [layout_step]
  · simp [layout_step]
  · simp only [main_loop]
    exact (main_loop_built frames _ (frame_layout i _).1).2
  · simp only [main_loop]
    exact (main_loop_built frames _ (frame_layout i _).1).1
  · simp only [main_loop]
    rw [(frame_layout i _).2, (cout_writes_layout _ _).1, (cout_writes_layout _ _).2]
    simp

theorem build_default_layout_eq (d : Nat) (tree : Option DockNode) :
    build_default_layout d tree = some
      (.split d .horizontal (3 / 4)
        (.split (d + 1) .vertical (3 / 4) (.leaf (d + 3) ["Viewport"]) (.leaf (d + 4) ["Console"]))
        (.split (d + 2) .vertical (1 / 2) (.leaf (d + 5) ["Scene Graph"])
          (.leaf (d + 6) ["Properties"]))) := by
  have r1 : ImSaturate (1 - 0.25) = 3 / 4 := by unfold ImSaturate; norm_num
  have r2 : ImSaturate (1 - 0.5) = 1 / 2 := by unfold ImSaturate; norm_num
  have m1 : max d (max (d + 1) (d + 2)) = d + 2 := by omega
  have m3 : max d (d + 2 + 2) = d + 2 + 2 := by omega
  have h3 : ¬ (d = d + 2 + 1) := by omega
  have h4 : ¬ (d = d + 2 + 2 + 1) := by omega
  have h5 : ¬ (d = d + 2 + 2 + 2) := by omega
  have h6 : ¬ (d = d + 2 + 2) := by omega
  simp [h3, h4, h5, h6, build_default_layout, DockBuilderAddNode, DockBuilderSplitNode, DockNode.split_leaf,
    DockNode.max_id, r1, r2, m1, m3, DockBuilderDockWindow, DockNode.undock, DockNode.dock]

theorem spec_layout_spec_directives :
    spec_layout spec_directives spec_bindings = some
      (.split .vertical (3 / 4)
        (.split .horizontal (3 / 4) (.leaf "main2" (some "Viewport"))
          (.split .vertical (1 / 2) (.leaf "right_top" (some "Scene Graph"))
            (.leaf "right_bottom" (some "Properties"))))
        (.leaf "bottom" (some "Console"))) := by
  simp [spec_layout, spec_directives, spec_bindings, RegionNode.apply_split, RegionNode.bind]
  norm_num

theorem spec_layout_code_directives :
    spec_layout code_directives spec_bindings = some
      (.split .horizontal (3 / 4)
        (.split .vertical (3 / 4) (.leaf "main2" (some "Viewport"))
          (.leaf "bottom" (some "Console")))
        (.split .vertical (1 / 2) (.leaf "right_top" (some "Scene Graph"))
          (.leaf "right_bottom" (some "Properties")))) := by
  simp [spec_layout, code_directives, spec_bindings, RegionNode.apply_split, RegionNode.bind]
  norm_num

/-- C4 (as stated, refuted): the tree built on the first frame (dockspace id 1, no
tree before) has 4 leaves, not 5, and is not the tree the spec's directives
describe: it is cut left/right first, theirs top/bottom first. -/
theorem first_frame_layout_has_four_leaves :
    (build_default_layout 1 none).map (fun t => t.leaves.length) = some 4 ∧
    (build_default_layout 1 none).map (fun t => t.leaves.length) ≠ some 5 ∧
    (build_default_layout 1 none).map DockNode.shape ≠
      (spec_layout spec_directives spec_bindings).map RegionNode.shape := by
  rw [build_default_layout_eq, spec_layout_spec_directives]
  simp [DockNode.leaves, DockNode.shape, RegionNode.shape]

/-- C4 (amended): for every dockspace id and earlier tree, the first-frame build
succeeds and gives the tree of the directives (root, horizontal, 0.75) → (main,
right), (main, vertical, 0.75) → (main2, bottom), (right, vertical, 0.5) →
(right_top, right_bottom) with the four bindings; it has exactly 4 leaves, each of
the four panels is docked in exactly one leaf, no leaf holds more than one window
and no leaf is empty. -/
theorem first_frame_layout_tree (d : Nat) (tree : Option DockNode) :
    ∃ t, build_default_layout d tree = some t ∧
      some t.shape = (spec_layout code_directives spec_bindings).map RegionNode.shape ∧
      t.leaves.length = 4 ∧
      (∀ p ∈ panel_names, t.leaves_holding p = 1) ∧
      (∀ l ∈ t.leaves, l.2.length ≤ 1) ∧
      (t.leaves.filter (fun l => l.2.isEmpty)).length = 0 := by
  refine ⟨_, build_default_layout_eq d tree, ?_, ?_, ?_, ?_, ?_⟩
  · rw [spec_layout_code_directives]
    simp [DockNode.shape, RegionNode.shape]
  · simp [DockNode.leaves]
  · simp [panel_names, DockNode.leaves_holding, DockNode.leaves]
  · simp [DockNode.leaves]
  · simp [DockNode.leaves]

/-- C9: for every dockspace id, earlier tree and window rectangle, the default layout
gives the right quarter of the width to a region split in halves, Scene Graph on
top and Properties below; of the remaining three quarters of the width, the lower
quarter of the height holds Console and the rest holds Viewport; the split ratios
(0.75, 0.75, 0.5) lie strictly between 0 and 1, and the four panels sit in four
leaves with distinct ids. -/
theorem default_layout_regions (d : Nat) (tree : Option DockNode) (W H : ℚ) :
    ∃ t, build_default_layout d tree = some t ∧
      t.shape =
        .split .horizontal (3 / 4)
          (.split .vertical (3 / 4) (.leaf ["Viewport"]) (.leaf ["Console"]))
          (.split .vertical (1 / 2) (.leaf ["Scene Graph"]) (.leaf ["Properties"])) ∧
      t.regions { x := 0, y := 0, w := W, h := H } =
        [ (["Viewport"], { x := 0, y := 0, w := W * (3 / 4), h := H * (3 / 4) }),
          (["Console"], { x := 0, y := H * (3 / 4), w := W * (3 / 4), h := H * (1 / 4) }),
          (["Scene Graph"], { x := W * (3 / 4), y := 0, w := W * (1 / 4), h := H * (1 / 2) }),
          (["Properties"],
            { x := W * (3 / 4), y := H * (1 / 2), w := W * (1 / 4), h := H * (1 / 2) }) ] ∧
      t.ratios = [3 / 4, 3 / 4, 1 / 2] ∧
      (∀ r ∈ t.ratios, 0 < r ∧ r < 1) ∧
      t.leaves.map (fun l => l.2) = [["Viewport"], ["Console"], ["Scene Graph"], ["Properties"]] ∧
      (t.leaves.map (fun l => l.1)).Nodup := by
  refine ⟨_, build_default_layout_eq d tree, ?_, ?_, ?_, ?_, ?_, ?_⟩
  · simp [DockNode.shape]
  · simp [DockNode.regions]
    norm_num
  · simp [DockNode.ratios]
  · simp [DockNode.ratios]
    norm_num
  · simp [DockNode.leaves]
  · simp [DockNode.leaves]

end Huira
